import Mathlib

/-!
Verification of the futures screener (`screener_v2.py`).

The program scans exchange futures symbols for a bullish order-flow
pattern.  The core logic is:

* `calculate_cumulative_delta` — splits each OHLCV candle's volume into an
  estimated buy part and sell part and accumulates totals plus a running
  delta (skipping zero-range candles);
* an open-interest growth computation `((last - prev) / prev) * 100`
  (raises `ZeroDivisionError` in Python when `prev = 0`);
* a five-condition conjunctive gate deciding whether a symbol/interval
  qualifies and a notification is sent;
* per-symbol orchestration (`analyze_symbol`) that skips a symbol whenever
  the market-data fetch fails with a `BinanceAPIException`;
* a market scan (`analyze_market`) over all USDT-quoted symbols and an
  infinite loop (`main`) sleeping one second between cycles.

Arithmetic is modelled over `ℚ` (exact arithmetic); Python exceptions are
modelled with `Except`: an `Except.error` value means the corresponding
Python exception was raised and has not been caught at that point.
-/

deriving instance DecidableEq for Except

/-- Python exceptions that can be raised by the analysis code itself. -/
inductive PyErr where
  | ZeroDivisionError
  deriving DecidableEq, Repr

/-- Errors raised by the Binance client: a `BinanceAPIException`
carrying its numeric error code (`-4108` is the "unsupported pair"
condition treated specially by `fetch_futures_data`). -/
inductive FetchErr where
  | apiError (code : Int)
  deriving DecidableEq, Repr

/-- One OHLCV candle, as parsed from a kline row
(`float(kline[1])` … `float(kline[5])`). -/
structure Candle where
  openPrice : ℚ
  high : ℚ
  low : ℚ
  close : ℚ
  volume : ℚ
  deriving DecidableEq, Repr

/-- The aggregate computed by `calculate_cumulative_delta`. -/
structure VolumeSplit where
  cumulativeDelta : ℚ
  totalBuyVolume : ℚ
  totalSellVolume : ℚ
  deriving DecidableEq, Repr

/-- The configuration fields read by `analyze_symbol`
(`config['delta_percentage']`, `config['interest_percentage']`). -/
structure Config where
  delta_percentage : ℚ
  interest_percentage : ℚ
  deriving DecidableEq, Repr

/-- The data `fetch_futures_data` returns on success:
`float(open_interest['openInterest'])`,
`float(open_interest_hist[-2]['sumOpenInterest'])`, and the dict of
klines per interval. -/
structure FetchedData where
  openInterest : ℚ
  prevOpenInterest : ℚ
  klinesByInterval : List (String × List Candle)
  deriving DecidableEq, Repr

/-- One entry of `futures_exchange_info()['symbols']`. -/
structure SymbolInfo where
  symbol : String
  quoteAsset : String
  deriving DecidableEq, Repr

/-- The content of the Telegram message sent on a qualifying signal
(every datum interpolated into the message text).  `buyToSell` is `none`
when the code substitutes `float('inf')` (`total_sell_volume == 0`);
`currentPrice` is `none` when the price fetch failed. -/
structure SignalReport where
  symbol : String
  interval : String
  prevOpenInterest : ℚ
  lastOpenInterest : ℚ
  interestGrowth : ℚ
  cumulativeDelta : ℚ
  totalBuyVolume : ℚ
  totalSellVolume : ℚ
  buyToSell : Option ℚ
  currentPrice : Option ℚ
  deriving DecidableEq, Repr

/-- Python division: raises `ZeroDivisionError` on a zero denominator,
otherwise exact division. -/
def pyDiv (a b : ℚ) : Except PyErr ℚ :=
  if b = 0 then .error .ZeroDivisionError else .ok (a / b)

/-- Line 117: `((last_open_interest - prev_open_interest) / prev_open_interest) * 100`.
Takes `previous` then `current` (§4.2 `growthPercent(previous, current)`). -/
def growthPercent (previous current : ℚ) : Except PyErr ℚ :=
  (pyDiv (current - previous) previous).map (fun g => g * 100)

/-- Line 88: `buy_volume = (candle_volume / price_range) * (close_price - low_price)`.
Only ever applied by the splitter to candles with `high - low ≠ 0`. -/
def buy_volume (c : Candle) : ℚ :=
  (c.volume / (c.high - c.low)) * (c.close - c.low)

/-- Line 89: `sell_volume = candle_volume - buy_volume`. -/
def sell_volume (c : Candle) : ℚ :=
  c.volume - buy_volume c

/-- One iteration of the loop in `calculate_cumulative_delta`
(lines 76–94): skip the candle when `price_range == 0`, otherwise
accumulate buy volume, sell volume and the running delta. -/
def calcStep (acc : VolumeSplit) (k : Candle) : VolumeSplit :=
  if k.high - k.low = 0 then acc
  else
    { cumulativeDelta := acc.cumulativeDelta + (buy_volume k - sell_volume k)
      totalBuyVolume := acc.totalBuyVolume + buy_volume k
      totalSellVolume := acc.totalSellVolume + sell_volume k }

/-- Model of `calculate_cumulative_delta(klines)` (lines 70–96): fold the step over
the candles in input order starting from all-zero accumulators. -/
def calculate_cumulative_delta (klines : List Candle) : VolumeSplit :=
  klines.foldl calcStep { cumulativeDelta := 0, totalBuyVolume := 0, totalSellVolume := 0 }

/-- The candles the splitter actually processes: those with
`high - low ≠ 0` (line 85 skips the rest). -/
def activeOf (cs : List Candle) : List Candle :=
  cs.filter (fun c => decide (c.high - c.low ≠ 0))

/-- The spec's per-candle buy-volume formula:
`volume * (close - low) / (high - low)` (§4.1). -/
def buySpec (c : Candle) : ℚ :=
  c.volume * (c.close - c.low) / (c.high - c.low)

/-- Lines 120–124: the five-condition conjunctive gate.  The first four
conditions are pure comparisons; the fifth,
`cumulative_delta / total_buy_volume * 100 > delta_percentage`, performs a
division that Python only evaluates after the first four hold (`and`
short-circuits), and that raises `ZeroDivisionError` when
`total_buy_volume == 0`. -/
def signal_conditions_gate (vs : VolumeSplit) (lastOI prevOI growth dp ip : ℚ) :
    Except PyErr Bool :=
  if vs.totalBuyVolume > vs.totalSellVolume ∧ vs.cumulativeDelta > 0 ∧
      lastOI > prevOI ∧ growth > ip then
    (pyDiv vs.cumulativeDelta vs.totalBuyVolume).map (fun q => decide (q * 100 > dp))
  else .ok false

/-- Lines 126–138: the data interpolated into the notification message,
with `float('inf')` (modelled `none`) as the buy/sell quotient when
`total_sell_volume == 0`. -/
def mkSignalReport (symbol interval : String) (vs : VolumeSplit)
    (lastOI prevOI growth : ℚ) (current_price : Option ℚ) : SignalReport :=
  { symbol := symbol
    interval := interval
    prevOpenInterest := prevOI
    lastOpenInterest := lastOI
    interestGrowth := growth
    cumulativeDelta := vs.cumulativeDelta
    totalBuyVolume := vs.totalBuyVolume
    totalSellVolume := vs.totalSellVolume
    buyToSell :=
      if vs.totalSellVolume ≠ 0 then some (vs.totalBuyVolume / vs.totalSellVolume) else none
    currentPrice := current_price }

/-- Lines 107–140, the per-interval body of `analyze_symbol` applied to an
already-computed volume split: compute the open-interest growth (line 117,
may raise `ZeroDivisionError`), run the gate, and on qualification build
the message data that is logged and sent to Telegram.  `.ok (some r)`
means a notification with content `r` is produced; `.ok none` means the
evaluation does not qualify and nothing is sent; `.error e` means the
Python exception `e` escapes `analyze_symbol`. -/
def evaluate_and_report (symbol interval : String) (vs : VolumeSplit)
    (lastOI prevOI dp ip : ℚ) (current_price : Option ℚ) :
    Except PyErr (Option SignalReport) := do
  let growth ← growthPercent prevOI lastOI
  let q ← signal_conditions_gate vs lastOI prevOI growth dp ip
  if q then
    return some (mkSignalReport symbol interval vs lastOI prevOI growth current_price)
  else
    return none

/-- The per-interval body of `analyze_symbol` starting from the raw
klines (line 105 computes the split, then lines 107–140 evaluate it). -/
def analyze_interval (symbol interval : String) (klines : List Candle)
    (lastOI prevOI dp ip : ℚ) (current_price : Option ℚ) :
    Except PyErr (Option SignalReport) :=
  evaluate_and_report symbol interval (calculate_cumulative_delta klines)
    lastOI prevOI dp ip current_price

/-- Model of `fetch_futures_data` (lines 51–68): a `BinanceAPIException` from the
client — whether the `-4108` "unsupported pair" code or any other — is
caught and turned into a `None` result; success passes the data through.
The raw client call is abstracted as the function `fetch`. -/
def fetch_futures_data (fetch : String → Except FetchErr FetchedData)
    (symbol : String) : Option FetchedData :=
  match fetch symbol with
  | .ok d => some d
  | .error (.apiError _) => none

/-- Model of `analyze_symbol` (lines 98–140): if the fetch produced data (the
`if open_interest and open_interest_hist and klines_by_interval` truthiness
check; an empty klines dict is falsy), evaluate every interval and collect
the notifications sent.  `fetch` abstracts the market-data client and
`price` the (exception-catching) `fetch_current_price`. -/
def analyze_symbol (cfg : Config) (fetch : String → Except FetchErr FetchedData)
    (price : String → Option ℚ) (symbol : String) :
    Except PyErr (List SignalReport) :=
  match fetch_futures_data fetch symbol with
  | none => .ok []
  | some d =>
    if d.klinesByInterval = [] then .ok []
    else
      (d.klinesByInterval.mapM (fun p =>
        analyze_interval symbol p.1 p.2 d.openInterest d.prevOpenInterest
          cfg.delta_percentage cfg.interest_percentage (price symbol))).map
        (fun l => l.filterMap id)

/-- Line 147: the symbol universe of one cycle — the USDT-quoted entries
of the freshly fetched exchange info. -/
def usdtSymbols (infos : List SymbolInfo) : List String :=
  (infos.filter (fun i => i.quoteAsset = "USDT")).map (fun i => i.symbol)

/-- Model of `analyze_market` (lines 143–153): fetch the exchange info (a
`BinanceAPIException` there is caught and the cycle scans nothing), then
run `analyze_symbol` on every USDT-quoted symbol in order.  The result
collects all notifications of the cycle; an `Except.error` means a Python
exception other than `BinanceAPIException` (such as `ZeroDivisionError`)
escaped `analyze_market`, aborting the cycle. -/
def analyze_market (cfg : Config) (futures_info : Except FetchErr (List SymbolInfo))
    (fetch : String → Except FetchErr FetchedData) (price : String → Option ℚ) :
    Except PyErr (List SignalReport) :=
  match futures_info with
  | .error (.apiError _) => .ok []
  | .ok infos =>
    ((usdtSymbols infos).mapM (fun s => analyze_symbol cfg fetch price s)).map
      (fun l => l.flatten)

/-- The payload of a successful per-symbol analysis, the empty list
otherwise. -/
def okOr (e : Except PyErr (List SignalReport)) : List SignalReport :=
  match e with
  | .ok rs => rs
  | .error _ => []

/-- The notifications one symbol contributes to a completed cycle. -/
def symbolReports (cfg : Config) (fetch : String → Except FetchErr FetchedData)
    (price : String → Option ℚ) (s : String) : List SignalReport :=
  okOr (analyze_symbol cfg fetch price s)

/-- Observable events of the scan loop. -/
inductive Event where
  | scanSymbol (s : String)
  | sleepSec (n : ℕ)
  deriving DecidableEq, Repr

/-- Line 160: `time.sleep(1)` — the loop's fixed inter-cycle delay, in
seconds. -/
def interCycleDelay : ℕ := 1

/-- The Scanning phase of one cycle: the `for symbol in symbols` loop of
`analyze_market` invokes `analyze_symbol` once per listed symbol, in
order. -/
def scanPhase : List String → List Event
  | [] => []
  | s :: rest => Event.scanSymbol s :: scanPhase rest

/-- One full cycle of `main`: the Scanning phase over the freshly fetched
universe of cycle `n`, then the Idle phase (`time.sleep(1)`). -/
def cycleTrace (universeAt : ℕ → List SymbolInfo) (n : ℕ) : List Event :=
  scanPhase (usdtSymbols (universeAt n)) ++ [Event.sleepSec interCycleDelay]

/-- The event trace of the first `n` cycles of `main`'s `while True`
loop. -/
def mainTrace (universeAt : ℕ → List SymbolInfo) : ℕ → List Event
  | 0 => []
  | n + 1 => mainTrace universeAt n ++ cycleTrace universeAt n

/-! ## Characterization of the volume splitter -/

theorem buy_volume_eq_buySpec (c : Candle) : buy_volume c = buySpec c := by
  unfold buy_volume buySpec
  rw [div_mul_eq_mul_div]

theorem sum_map_add_q {α : Type} (l : List α) (f g : α → ℚ) :
    (l.map (fun x => f x + g x)).sum = (l.map f).sum + (l.map g).sum := by
  induction l with
  | nil => simp
  | cons x xs ih => simp [ih]; ring

theorem sum_map_sub_q {α : Type} (l : List α) (f g : α → ℚ) :
    (l.map (fun x => f x - g x)).sum = (l.map f).sum - (l.map g).sum := by
  induction l with
  | nil => simp
  | cons x xs ih => simp [ih]; ring

theorem foldl_calcStep (cs : List Candle) (acc : VolumeSplit) :
    cs.foldl calcStep acc =
      { cumulativeDelta :=
          acc.cumulativeDelta + ((activeOf cs).map (fun c => buy_volume c - sell_volume c)).sum
        totalBuyVolume := acc.totalBuyVolume + ((activeOf cs).map buy_volume).sum
        totalSellVolume := acc.totalSellVolume + ((activeOf cs).map sell_volume).sum } := by
  induction cs generalizing acc with
  | nil => simp [activeOf]
  | cons c rest ih =>
    rw [List.foldl_cons, ih]
    by_cases h : c.high - c.low = 0
    · simp [activeOf, List.filter_cons, h, calcStep]
    · simp only [activeOf, List.filter_cons, h, decide_not, calcStep, if_neg h,
        decide_eq_true_eq] at *
      simp [h, VolumeSplit.mk.injEq]
      refine ⟨by ring, by ring, by ring⟩

theorem calc_delta_char (cs : List Candle) :
    calculate_cumulative_delta cs =
      { cumulativeDelta := ((activeOf cs).map (fun c => buy_volume c - sell_volume c)).sum
        totalBuyVolume := ((activeOf cs).map buy_volume).sum
        totalSellVolume := ((activeOf cs).map sell_volume).sum } := by
  rw [calculate_cumulative_delta, foldl_calcStep]
  simp

/-! ## Claim theorems: the volume splitter (C2, C3, C10) -/

/-- C2: the volume splitter skips candles with `high = low`; every other
candle contributes buy volume `volume * (close - low) / (high - low)` and
sell volume `volume` minus that, accumulated (in input order) into the
totals and the running delta; an empty or all-zero-range input yields the
zero-valued `VolumeSplit` and no error. -/
theorem splitter_follows_spec_formulas (cs : List Candle) :
    calculate_cumulative_delta cs =
      { cumulativeDelta :=
          ((activeOf cs).map (fun c => buySpec c - (c.volume - buySpec c))).sum
        totalBuyVolume := ((activeOf cs).map buySpec).sum
        totalSellVolume := ((activeOf cs).map (fun c => c.volume - buySpec c)).sum } ∧
    ((∀ c ∈ cs, c.high = c.low) →
      calculate_cumulative_delta cs =
        { cumulativeDelta := 0, totalBuyVolume := 0, totalSellVolume := 0 }) := by
  have hb : buy_volume = buySpec := funext buy_volume_eq_buySpec
  have hs : sell_volume = (fun c => c.volume - buySpec c) :=
    funext fun c => by rw [sell_volume, buy_volume_eq_buySpec]
  constructor
  · rw [calc_delta_char, hb, hs]
  · intro h
    rw [calc_delta_char]
    have hnil : activeOf cs = [] := by
      simp only [activeOf, List.filter_eq_nil_iff]
      intro c hc
      simp [h c hc]
    simp [hnil]

/-- C2 witness: a single zero-range candle gives the zero split. -/
theorem splitter_follows_spec_formulas_witness :
    calculate_cumulative_delta [⟨1, 5, 5, 5, 10⟩] =
      { cumulativeDelta := 0, totalBuyVolume := 0, totalSellVolume := 0 } :=
  (splitter_follows_spec_formulas [⟨1, 5, 5, 5, 10⟩]).2 (by
    intro c hc
    simp only [List.mem_singleton] at hc
    subst hc
    norm_num)

/-- C3: for candle sequences with `low ≤ high` (the data model's candle
invariant), the split satisfies `totalBuyVolume + totalSellVolume =`
the sum of volumes of exactly the candles with `high > low`, and
`cumulativeDelta = totalBuyVolume - totalSellVolume`, exactly. -/
theorem split_invariants_thm (cs : List Candle) (h : ∀ c ∈ cs, c.low ≤ c.high) :
    (calculate_cumulative_delta cs).totalBuyVolume +
        (calculate_cumulative_delta cs).totalSellVolume =
      ((cs.filter (fun c => decide (c.low < c.high))).map Candle.volume).sum ∧
    (calculate_cumulative_delta cs).cumulativeDelta =
      (calculate_cumulative_delta cs).totalBuyVolume -
        (calculate_cumulative_delta cs).totalSellVolume := by
  rw [calc_delta_char]
  constructor
  · have hfil : activeOf cs = cs.filter (fun c => decide (c.low < c.high)) := by
      apply List.filter_congr
      intro c hc
      have hle := h c hc
      simp only [decide_eq_decide, sub_ne_zero]
      exact ⟨fun hne => lt_of_le_of_ne hle (Ne.symm hne), fun hlt => ne_of_gt hlt⟩
    have hsum : ((activeOf cs).map buy_volume).sum + ((activeOf cs).map sell_volume).sum =
        ((activeOf cs).map Candle.volume).sum := by
      rw [← sum_map_add_q]
      have hf : (fun c : Candle => buy_volume c + sell_volume c) = Candle.volume :=
        funext fun c => by rw [sell_volume]; ring
      rw [hf]
    simpa [hfil] using hsum
  · simp [sum_map_sub_q]

/-- C3 witness: the spec's example candle. -/
theorem split_invariants_witness :
    (calculate_cumulative_delta [⟨100, 110, 90, 108, 1000⟩]).totalBuyVolume +
        (calculate_cumulative_delta [⟨100, 110, 90, 108, 1000⟩]).totalSellVolume =
      (([⟨100, 110, 90, 108, 1000⟩].filter
          (fun c => decide (c.low < c.high))).map Candle.volume).sum ∧
    (calculate_cumulative_delta [⟨100, 110, 90, 108, 1000⟩]).cumulativeDelta =
      (calculate_cumulative_delta [⟨100, 110, 90, 108, 1000⟩]).totalBuyVolume -
        (calculate_cumulative_delta [⟨100, 110, 90, 108, 1000⟩]).totalSellVolume :=
  split_invariants_thm [⟨100, 110, 90, 108, 1000⟩] (by
    intro c hc
    simp only [List.mem_singleton] at hc
    subst hc
    norm_num)

/-- C10: for candles with `low ≤ close ≤ high` and `volume ≥ 0`, the
per-candle buy volume of every processed candle lies in `[0, volume]`,
hence both totals are nonnegative and `|cumulativeDelta|` is at most
`totalBuyVolume + totalSellVolume`. -/
theorem split_bounds_thm (cs : List Candle)
    (h : ∀ c ∈ cs, c.low ≤ c.close ∧ c.close ≤ c.high ∧ 0 ≤ c.volume) :
    (∀ c ∈ cs, c.high - c.low ≠ 0 → 0 ≤ buy_volume c ∧ buy_volume c ≤ c.volume) ∧
    0 ≤ (calculate_cumulative_delta cs).totalBuyVolume ∧
    0 ≤ (calculate_cumulative_delta cs).totalSellVolume ∧
    |(calculate_cumulative_delta cs).cumulativeDelta| ≤
      (calculate_cumulative_delta cs).totalBuyVolume +
        (calculate_cumulative_delta cs).totalSellVolume := by
  have key : ∀ c ∈ cs, c.high - c.low ≠ 0 → 0 ≤ buy_volume c ∧ buy_volume c ≤ c.volume := by
    intro c hc hr
    obtain ⟨h1, h2, h3⟩ := h c hc
    have hlt : (0 : ℚ) < c.high - c.low := by
      rcases lt_or_eq_of_le (le_trans h1 h2) with hlt | heq
      · linarith
      · exact absurd (by rw [← heq]; ring) hr
    refine ⟨mul_nonneg (div_nonneg h3 hlt.le) (by linarith), ?_⟩
    have hq : 0 ≤ c.volume / (c.high - c.low) := div_nonneg h3 hlt.le
    have hle : buy_volume c ≤ c.volume / (c.high - c.low) * (c.high - c.low) := by
      unfold buy_volume
      exact mul_le_mul_of_nonneg_left (by linarith) hq
    rw [div_mul_cancel₀ c.volume (ne_of_gt hlt)] at hle
    exact hle
  have hmem : ∀ c ∈ activeOf cs, 0 ≤ buy_volume c ∧ buy_volume c ≤ c.volume := by
    intro c hc
    rw [activeOf, List.mem_filter] at hc
    exact key c hc.1 (of_decide_eq_true hc.2)
  have hB : 0 ≤ ((activeOf cs).map buy_volume).sum := by
    apply List.sum_nonneg
    intro x hx
    obtain ⟨c, hc, rfl⟩ := List.mem_map.1 hx
    exact (hmem c hc).1
  have hS : 0 ≤ ((activeOf cs).map sell_volume).sum := by
    apply List.sum_nonneg
    intro x hx
    obtain ⟨c, hc, rfl⟩ := List.mem_map.1 hx
    have := (hmem c hc).2
    simp only [sell_volume]
    linarith
  refine ⟨key, ?_, ?_, ?_⟩
  · rw [calc_delta_char]; exact hB
  · rw [calc_delta_char]; exact hS
  · rw [calc_delta_char]
    simp only [sum_map_sub_q]
    rw [abs_le]
    constructor <;> linarith

/-- C10 witness: the spec's example candle. -/
theorem split_bounds_witness :
    0 ≤ (calculate_cumulative_delta [⟨100, 110, 90, 108, 1000⟩]).totalBuyVolume ∧
    0 ≤ (calculate_cumulative_delta [⟨100, 110, 90, 108, 1000⟩]).totalSellVolume ∧
    |(calculate_cumulative_delta [⟨100, 110, 90, 108, 1000⟩]).cumulativeDelta| ≤
      (calculate_cumulative_delta [⟨100, 110, 90, 108, 1000⟩]).totalBuyVolume +
        (calculate_cumulative_delta [⟨100, 110, 90, 108, 1000⟩]).totalSellVolume :=
  (split_bounds_thm [⟨100, 110, 90, 108, 1000⟩] (by
    intro c hc
    simp only [List.mem_singleton] at hc
    subst hc
    norm_num)).2

/-! ## Evaluation lemmas for the per-interval signal evaluation -/

theorem growthPercent_ok {p : ℚ} (c : ℚ) (hp : p ≠ 0) :
    growthPercent p c = .ok ((c - p) / p * 100) := by
  unfold growthPercent pyDiv
  simp [hp, Except.map]

theorem eval_result_not_four (symbol interval : String) (vs : VolumeSplit)
    (lastOI prevOI dp ip : ℚ) (price : Option ℚ) (hp : prevOI ≠ 0)
    (hc : ¬(vs.totalBuyVolume > vs.totalSellVolume ∧ vs.cumulativeDelta > 0 ∧
        lastOI > prevOI ∧ (lastOI - prevOI) / prevOI * 100 > ip)) :
    evaluate_and_report symbol interval vs lastOI prevOI dp ip price = .ok none := by
  unfold evaluate_and_report
  rw [growthPercent_ok lastOI hp]
  simp [bind, Except.bind, signal_conditions_gate, hc, pure, Except.pure]

theorem eval_result_four_buy_zero (symbol interval : String) (vs : VolumeSplit)
    (lastOI prevOI dp ip : ℚ) (price : Option ℚ) (hp : prevOI ≠ 0)
    (hc : vs.totalBuyVolume > vs.totalSellVolume ∧ vs.cumulativeDelta > 0 ∧
        lastOI > prevOI ∧ (lastOI - prevOI) / prevOI * 100 > ip)
    (h0 : vs.totalBuyVolume = 0) :
    evaluate_and_report symbol interval vs lastOI prevOI dp ip price =
      .error .ZeroDivisionError := by
  unfold evaluate_and_report
  rw [growthPercent_ok lastOI hp]
  have hs0 : vs.totalSellVolume < 0 := by
    have h1 := hc.1
    rw [h0] at h1
    exact h1
  simp [bind, Except.bind, signal_conditions_gate, hc, pyDiv, h0, hs0, Except.map, pure,
    Except.pure]

theorem eval_result_four_fifth (symbol interval : String) (vs : VolumeSplit)
    (lastOI prevOI dp ip : ℚ) (price : Option ℚ) (hp : prevOI ≠ 0)
    (hc : vs.totalBuyVolume > vs.totalSellVolume ∧ vs.cumulativeDelta > 0 ∧
        lastOI > prevOI ∧ (lastOI - prevOI) / prevOI * 100 > ip)
    (hbne : vs.totalBuyVolume ≠ 0)
    (h5 : vs.cumulativeDelta / vs.totalBuyVolume * 100 > dp) :
    evaluate_and_report symbol interval vs lastOI prevOI dp ip price =
      .ok (some (mkSignalReport symbol interval vs lastOI prevOI
        ((lastOI - prevOI) / prevOI * 100) price)) := by
  unfold evaluate_and_report
  rw [growthPercent_ok lastOI hp]
  simp [bind, Except.bind, signal_conditions_gate, hc, pyDiv, hbne, Except.map, h5, pure, Except.pure]

theorem eval_result_four_not_fifth (symbol interval : String) (vs : VolumeSplit)
    (lastOI prevOI dp ip : ℚ) (price : Option ℚ) (hp : prevOI ≠ 0)
    (hc : vs.totalBuyVolume > vs.totalSellVolume ∧ vs.cumulativeDelta > 0 ∧
        lastOI > prevOI ∧ (lastOI - prevOI) / prevOI * 100 > ip)
    (hbne : vs.totalBuyVolume ≠ 0)
    (h5 : ¬vs.cumulativeDelta / vs.totalBuyVolume * 100 > dp) :
    evaluate_and_report symbol interval vs lastOI prevOI dp ip price = .ok none := by
  unfold evaluate_and_report
  rw [growthPercent_ok lastOI hp]
  simp [bind, Except.bind, signal_conditions_gate, hc, pyDiv, hbne, Except.map, h5, pure, Except.pure]

/-! ## Claim theorems: growth computation and signal gate (C5, C6, C1, C9) -/

/-- C5: the open-interest growth computation fails with `ZeroDivisionError`
iff the previous open interest is `0`, otherwise returns exactly
`(current - previous) / previous * 100`; in particular
`growthPercent 100 150 = 50`. -/
theorem growthPercent_contract (p c : ℚ) :
    (growthPercent p c = .error .ZeroDivisionError ↔ p = 0) ∧
    (p ≠ 0 → growthPercent p c = .ok ((c - p) / p * 100)) ∧
    growthPercent 100 150 = .ok 50 := by
  refine ⟨?_, fun hp => growthPercent_ok c hp, ?_⟩
  · unfold growthPercent pyDiv
    by_cases hp : p = 0 <;> simp [hp, Except.map]
  · rw [growthPercent_ok 150 (by norm_num : (100 : ℚ) ≠ 0)]
    norm_num

/-- C5 witness: the zero case fails, the example returns 50. -/
theorem growthPercent_contract_witness :
    growthPercent 0 7 = .error .ZeroDivisionError ∧
    growthPercent 100 150 = .ok ((150 - 100) / 100 * 100) :=
  ⟨(growthPercent_contract 0 7).1.mpr rfl,
   (growthPercent_contract 100 150).2.1 (by norm_num)⟩

/-- C6: when `totalBuyVolume = 0` and `totalSellVolume ≥ 0`, the fifth
condition's division is never reached: the first conjunct is already false
and the `and` short-circuits, so the gate answers `false` (non-qualifying)
without any `ZeroDivisionError`, and (when the growth computation itself
succeeds, i.e. the previous open interest is nonzero) the whole
per-interval evaluation returns "no signal" rather than an error. -/
theorem gate_zero_buy_no_error (vs : VolumeSplit) (lastOI prevOI growth dp ip : ℚ)
    (hb : vs.totalBuyVolume = 0) (hs : 0 ≤ vs.totalSellVolume) :
    signal_conditions_gate vs lastOI prevOI growth dp ip = .ok false ∧
    (∀ (symbol interval : String) (price : Option ℚ), prevOI ≠ 0 →
      evaluate_and_report symbol interval vs lastOI prevOI dp ip price = .ok none) := by
  have hc1 : ¬vs.totalBuyVolume > vs.totalSellVolume := by
    rw [hb]
    exact not_lt.mpr hs
  constructor
  · have hc : ¬(vs.totalBuyVolume > vs.totalSellVolume ∧ vs.cumulativeDelta > 0 ∧
        lastOI > prevOI ∧ growth > ip) := fun h => hc1 h.1
    simp [signal_conditions_gate, hc]
  · intro symbol interval price hp
    exact eval_result_not_four symbol interval vs lastOI prevOI dp ip price hp
      (fun h => hc1 h.1)

/-- C6 witness: a split with zero buy volume and positive sell volume. -/
theorem gate_zero_buy_no_error_witness :
    signal_conditions_gate ⟨0, 0, 3⟩ 2 1 100 5 10 = .ok false ∧
    evaluate_and_report "BTCUSDT" "5m" ⟨0, 0, 3⟩ 2 1 5 10 none = .ok none := by
  have h := gate_zero_buy_no_error ⟨0, 0, 3⟩ 2 1 100 5 10 rfl (by norm_num)
  exact ⟨h.1, h.2 "BTCUSDT" "5m" none (by norm_num)⟩

/-- C1: with a well-defined growth (previous open interest nonzero) and a
non-degenerate split (`totalBuyVolume ≠ 0`, or `totalSellVolume ≥ 0` so
that the short-circuit protects the division), the evaluation produces a
notification iff all five conditions hold simultaneously — buy > sell,
delta > 0, current OI > previous OI, growth above the interest threshold,
and `delta / buy * 100` above the delta threshold — and whenever any
single condition fails it qualifies nothing and sends nothing. -/
theorem evaluator_qualifies_iff_all_five (symbol interval : String) (vs : VolumeSplit)
    (lastOI prevOI dp ip : ℚ) (price : Option ℚ)
    (hp : prevOI ≠ 0) (hb : vs.totalBuyVolume ≠ 0 ∨ 0 ≤ vs.totalSellVolume) :
    ((∃ r, evaluate_and_report symbol interval vs lastOI prevOI dp ip price =
        .ok (some r)) ↔
      (vs.totalBuyVolume > vs.totalSellVolume ∧ vs.cumulativeDelta > 0 ∧
        lastOI > prevOI ∧ (lastOI - prevOI) / prevOI * 100 > ip ∧
        vs.cumulativeDelta / vs.totalBuyVolume * 100 > dp)) ∧
    (¬(vs.totalBuyVolume > vs.totalSellVolume ∧ vs.cumulativeDelta > 0 ∧
        lastOI > prevOI ∧ (lastOI - prevOI) / prevOI * 100 > ip ∧
        vs.cumulativeDelta / vs.totalBuyVolume * 100 > dp) →
      evaluate_and_report symbol interval vs lastOI prevOI dp ip price = .ok none) := by
  have hbne_of : vs.totalBuyVolume > vs.totalSellVolume → vs.totalBuyVolume ≠ 0 := by
    rcases hb with hb | hb
    · exact fun _ => hb
    · intro h1 h0
      rw [h0] at h1
      exact absurd h1 (not_lt.mpr hb)
  constructor
  · constructor
    · rintro ⟨r, hr⟩
      by_cases hc : vs.totalBuyVolume > vs.totalSellVolume ∧ vs.cumulativeDelta > 0 ∧
          lastOI > prevOI ∧ (lastOI - prevOI) / prevOI * 100 > ip
      · have hbne := hbne_of hc.1
        by_cases h5 : vs.cumulativeDelta / vs.totalBuyVolume * 100 > dp
        · exact ⟨hc.1, hc.2.1, hc.2.2.1, hc.2.2.2, h5⟩
        · rw [eval_result_four_not_fifth symbol interval vs lastOI prevOI dp ip price
            hp hc hbne h5] at hr
          simp at hr
      · rw [eval_result_not_four symbol interval vs lastOI prevOI dp ip price hp hc] at hr
        simp at hr
    · rintro ⟨h1, h2, h3, h4, h5⟩
      exact ⟨_, eval_result_four_fifth symbol interval vs lastOI prevOI dp ip price hp
        ⟨h1, h2, h3, h4⟩ (hbne_of h1) h5⟩
  · intro hnot
    by_cases hc : vs.totalBuyVolume > vs.totalSellVolume ∧ vs.cumulativeDelta > 0 ∧
        lastOI > prevOI ∧ (lastOI - prevOI) / prevOI * 100 > ip
    · have h5 : ¬vs.cumulativeDelta / vs.totalBuyVolume * 100 > dp :=
        fun h5 => hnot ⟨hc.1, hc.2.1, hc.2.2.1, hc.2.2.2, h5⟩
      exact eval_result_four_not_fifth symbol interval vs lastOI prevOI dp ip price
        hp hc (hbne_of hc.1) h5
    · exact eval_result_not_four symbol interval vs lastOI prevOI dp ip price hp hc

/-- C1 witness: the spec's qualifying example (§8) qualifies, and the same
example with negative open-interest growth does not. -/
theorem evaluator_qualifies_iff_all_five_witness :
    (∃ r, evaluate_and_report "BTCUSDT" "5m" ⟨800, 900, 100⟩ 1300 1000 5 10 none =
      .ok (some r)) ∧
    evaluate_and_report "BTCUSDT" "5m" ⟨800, 900, 100⟩ 1000 1300 5 10 none = .ok none := by
  constructor
  · exact (evaluator_qualifies_iff_all_five "BTCUSDT" "5m" ⟨800, 900, 100⟩ 1300 1000 5 10
      none (by norm_num) (Or.inl (by norm_num))).1.mpr (by norm_num)
  · exact (evaluator_qualifies_iff_all_five "BTCUSDT" "5m" ⟨800, 900, 100⟩ 1000 1300 5 10
      none (by norm_num) (Or.inl (by norm_num))).2 (by
        rintro ⟨-, -, h3, -, -⟩
        norm_num at h3)

/-! ## C9: the gate never reads the current price -/

theorem eval_price_shape (symbol interval : String) (vs : VolumeSplit)
    (lastOI prevOI dp ip : ℚ) (price : Option ℚ) :
    evaluate_and_report symbol interval vs lastOI prevOI dp ip price =
      Except.map (Option.map (fun r => { r with currentPrice := price }))
        (evaluate_and_report symbol interval vs lastOI prevOI dp ip none) := by
  unfold evaluate_and_report
  cases hg : growthPercent prevOI lastOI with
  | error e => simp [bind, Except.bind, Except.map]
  | ok g =>
    simp only [bind, Except.bind]
    cases hq : signal_conditions_gate vs lastOI prevOI g dp ip with
    | error e => simp [Except.map]
    | ok q =>
      cases q <;> simp [Except.map, pure, Except.pure, mkSignalReport]

theorem exists_some_of_map (g : SignalReport → SignalReport)
    (e : Except PyErr (Option SignalReport)) :
    (∃ r, Except.map (Option.map g) e = .ok (some r)) ↔ ∃ r, e = .ok (some r) := by
  cases e with
  | error _ => simp [Except.map]
  | ok o => cases o <;> simp [Except.map]

/-- C9: the qualification decision never depends on the fetched current
price: two evaluations identical except for the price (including a failed
price fetch, `none`) either both produce a notification or neither does;
and when the price fetch failed, a qualifying notification is still
produced, with its price field absent. -/
theorem qualification_price_independent (symbol interval : String) (vs : VolumeSplit)
    (lastOI prevOI dp ip : ℚ) (p1 p2 : Option ℚ) :
    ((∃ r, evaluate_and_report symbol interval vs lastOI prevOI dp ip p1 =
        .ok (some r)) ↔
      (∃ r, evaluate_and_report symbol interval vs lastOI prevOI dp ip p2 =
        .ok (some r))) ∧
    (∀ r, evaluate_and_report symbol interval vs lastOI prevOI dp ip none =
        .ok (some r) → r.currentPrice = none) := by
  constructor
  · rw [eval_price_shape symbol interval vs lastOI prevOI dp ip p1,
      eval_price_shape symbol interval vs lastOI prevOI dp ip p2,
      exists_some_of_map, exists_some_of_map]
  · intro r hr
    have hsh := eval_price_shape symbol interval vs lastOI prevOI dp ip none
    rw [hr] at hsh
    simp only [Except.map, Option.map] at hsh
    have := congrArg SignalReport.currentPrice (Except.ok.inj hsh |> Option.some.inj)
    simpa using this

/-- C9 witness: the spec's qualifying example qualifies with a fetched
price of 42, hence also with a failed price fetch, and the notification
then carries no price. -/
theorem qualification_price_independent_witness :
    (∃ r, evaluate_and_report "BTCUSDT" "1h" ⟨800, 900, 100⟩ 1300 1000 5 10 (some 42) =
      .ok (some r)) ∧
    (mkSignalReport "BTCUSDT" "1h" ⟨800, 900, 100⟩ 1300 1000 30 none).currentPrice =
      none := by
  have h := qualification_price_independent "BTCUSDT" "1h" ⟨800, 900, 100⟩ 1300 1000 5 10
    (some 42) none
  have hnone : evaluate_and_report "BTCUSDT" "1h" ⟨800, 900, 100⟩ 1300 1000 5 10 none =
      .ok (some (mkSignalReport "BTCUSDT" "1h" ⟨800, 900, 100⟩ 1300 1000 30 none)) := by
    norm_num [evaluate_and_report, mkSignalReport, growthPercent, pyDiv,
      signal_conditions_gate, Except.map, bind, Except.bind, pure, Except.pure]
  exact ⟨h.1.mpr ⟨_, hnone⟩, h.2 _ hnone⟩

/-! ## C7: an unsupported symbol is skipped locally -/

theorem mapM_reports_ok (f : String → Except PyErr (List SignalReport)) (l : List String)
    (h : ∀ a ∈ l, (f a).isOk = true) :
    l.mapM f = .ok (l.map (fun a => okOr (f a))) := by
  induction l with
  | nil => rfl
  | cons a as ih =>
    have ha := h a (List.mem_cons_self a as)
    rw [List.mapM_cons]
    cases hfa : f a with
    | error e =>
      rw [hfa] at ha
      simp [Except.isOk, Except.toBool] at ha
    | ok rs =>
      rw [ih (fun b hb => h b (List.mem_cons_of_mem a hb))]
      simp [bind, Except.bind, pure, Except.pure, okOr, hfa]

/-- C7: if fetching data for one symbol `b` fails with a
`BinanceAPIException` (in particular the `-4108` "unsupported pair" code),
`analyze_symbol` contributes nothing for `b`, and — provided the other
symbols' evaluations raise no uncaught exception — the market scan still
completes, producing exactly every symbol's own notifications: every
remaining symbol of the universe is evaluated and the cycle is not
aborted. -/
theorem unsupported_symbol_skipped (cfg : Config)
    (fetch : String → Except FetchErr FetchedData) (price : String → Option ℚ)
    (infos : List SymbolInfo) (b : String) (code : Int)
    (hb : fetch b = .error (.apiError code))
    (hok : ∀ s ∈ usdtSymbols infos, s ≠ b → (analyze_symbol cfg fetch price s).isOk = true) :
    analyze_symbol cfg fetch price b = .ok [] ∧
    analyze_market cfg (.ok infos) fetch price =
      .ok ((usdtSymbols infos).map (symbolReports cfg fetch price)).flatten := by
  have h1 : fetch_futures_data fetch b = none := by
    unfold fetch_futures_data
    rw [hb]
  have hskip : analyze_symbol cfg fetch price b = .ok [] := by
    unfold analyze_symbol
    rw [h1]
  have hall : ∀ s ∈ usdtSymbols infos, (analyze_symbol cfg fetch price s).isOk = true := by
    intro s hs
    by_cases hsb : s = b
    · subst hsb
      rw [hskip]
      rfl
    · exact hok s hs hsb
  refine ⟨hskip, ?_⟩
  have hm := mapM_reports_ok (fun s => analyze_symbol cfg fetch price s)
    (usdtSymbols infos) hall
  rw [show analyze_market cfg (.ok infos) fetch price =
      Except.map (fun l => l.flatten)
        ((usdtSymbols infos).mapM (fun s => analyze_symbol cfg fetch price s)) from rfl,
    hm]
  rfl

/-- C7 witness: a three-symbol universe whose middle symbol is
unsupported; the other two are still evaluated (the first one produces a
signal) and the scan completes. -/
theorem unsupported_symbol_skipped_witness :
    analyze_symbol ⟨5, 10⟩
      (fun s => if s = "BBBUSDT" then .error (.apiError (-4108))
        else if s = "AAAUSDT" then .ok ⟨1300, 1000, [("5m", [⟨100, 110, 90, 108, 1000⟩])]⟩
        else .ok ⟨100, 200, [("5m", [])]⟩)
      (fun _ => none) "BBBUSDT" = .ok [] ∧
    analyze_market ⟨5, 10⟩
      (.ok [⟨"AAAUSDT", "USDT"⟩, ⟨"BBBUSDT", "USDT"⟩, ⟨"CCCUSDT", "USDT"⟩])
      (fun s => if s = "BBBUSDT" then .error (.apiError (-4108))
        else if s = "AAAUSDT" then .ok ⟨1300, 1000, [("5m", [⟨100, 110, 90, 108, 1000⟩])]⟩
        else .ok ⟨100, 200, [("5m", [])]⟩)
      (fun _ => none) =
      .ok (([ "AAAUSDT", "BBBUSDT", "CCCUSDT"].map (symbolReports ⟨5, 10⟩
        (fun s => if s = "BBBUSDT" then .error (.apiError (-4108))
          else if s = "AAAUSDT" then .ok ⟨1300, 1000, [("5m", [⟨100, 110, 90, 108, 1000⟩])]⟩
          else .ok ⟨100, 200, [("5m", [])]⟩)
        (fun _ => none))).flatten) := by
  have h := unsupported_symbol_skipped ⟨5, 10⟩
    (fun s => if s = "BBBUSDT" then .error (.apiError (-4108))
      else if s = "AAAUSDT" then .ok ⟨1300, 1000, [("5m", [⟨100, 110, 90, 108, 1000⟩])]⟩
      else .ok ⟨100, 200, [("5m", [])]⟩)
    (fun _ => none)
    [⟨"AAAUSDT", "USDT"⟩, ⟨"BBBUSDT", "USDT"⟩, ⟨"CCCUSDT", "USDT"⟩]
    "BBBUSDT" (-4108) (by norm_num) ?_
  · refine ⟨h.1, ?_⟩
    have husdt : usdtSymbols [⟨"AAAUSDT", "USDT"⟩, ⟨"BBBUSDT", "USDT"⟩, ⟨"CCCUSDT", "USDT"⟩] =
        ["AAAUSDT", "BBBUSDT", "CCCUSDT"] := rfl
    rw [h.2, husdt]
  · intro s hs hsb
    rw [show usdtSymbols [⟨"AAAUSDT", "USDT"⟩, ⟨"BBBUSDT", "USDT"⟩, ⟨"CCCUSDT", "USDT"⟩] =
        ["AAAUSDT", "BBBUSDT", "CCCUSDT"] from rfl] at hs
    simp only [List.mem_cons, List.not_mem_nil, or_false] at hs
    rcases hs with rfl | rfl | rfl
    · have hne1 : ("AAAUSDT" = "BBBUSDT") = False := by simp
      norm_num [analyze_symbol, fetch_futures_data, analyze_interval, evaluate_and_report,
        calculate_cumulative_delta, calcStep, buy_volume, sell_volume, growthPercent, pyDiv,
        signal_conditions_gate, Except.map, bind, Except.bind, pure, Except.pure,
        List.mapM, List.mapM.loop, Except.isOk, Except.toBool, mkSignalReport, hne1]
    · exact absurd rfl hsb
    · have hne1 : ("CCCUSDT" = "BBBUSDT") = False := by simp
      have hne2 : ("CCCUSDT" = "AAAUSDT") = False := by simp
      norm_num [analyze_symbol, fetch_futures_data, analyze_interval, evaluate_and_report,
        calculate_cumulative_delta, calcStep, buy_volume, sell_volume, growthPercent, pyDiv,
        signal_conditions_gate, Except.map, bind, Except.bind, pure, Except.pure,
        List.mapM, List.mapM.loop, Except.isOk, Except.toBool, mkSignalReport, hne1, hne2]

/-! ## C4: zero previous open interest crashes the scan -/

/-- C4: when a symbol's previous open-interest sample is `0`, line 117
raises `ZeroDivisionError`; `analyze_market` catches only
`BinanceAPIException`, so the exception escapes the whole cycle: the
evaluation is not skipped, and the remaining symbols of the cycle
(here `BBBUSDT`) are never scanned.  This contradicts the spec's
"treated as non-qualifying, skip and continue" requirement — a code
bug, witnessed here on a concrete two-symbol universe. -/
theorem zero_prev_oi_crashes_scan :
    analyze_market ⟨5, 10⟩
      (.ok [⟨"AAAUSDT", "USDT"⟩, ⟨"BBBUSDT", "USDT"⟩])
      (fun s => if s = "AAAUSDT"
        then .ok ⟨100, 0, [("5m", [⟨100, 110, 90, 108, 1000⟩])]⟩
        else .ok ⟨100, 50, [("5m", [⟨100, 110, 90, 108, 1000⟩])]⟩)
      (fun _ => none) = .error .ZeroDivisionError := by
  norm_num [analyze_market, usdtSymbols, analyze_symbol, fetch_futures_data,
    analyze_interval, evaluate_and_report, growthPercent, pyDiv, signal_conditions_gate,
    Except.map, bind, Except.bind, pure, Except.pure, List.mapM, List.mapM.loop]

/-! ## C8: the scan loop's cycle structure -/

theorem scanPhase_count (l : List String) (s : String) :
    (scanPhase l).count (Event.scanSymbol s) = l.count s := by
  induction l with
  | nil => rfl
  | cons a rest ih =>
    simp only [scanPhase, List.count_cons, ih]
    by_cases h : a = s <;> simp [h]

/-- C8: every cycle of the scan loop invokes the per-symbol scanner
exactly once per symbol of that cycle's freshly fetched universe (the
scan-event count in the cycle trace equals the symbol's multiplicity in
the universe), the cycle ends with the Idle phase's fixed sleep of
`interCycleDelay` seconds, and the loop never terminates: the trace of
`n + 1` cycles always extends the trace of `n` cycles by one further
full cycle. -/
theorem scan_loop_cycle_structure (universeAt : ℕ → List SymbolInfo) (n : ℕ) :
    (∀ s, (cycleTrace universeAt n).count (Event.scanSymbol s) =
      (usdtSymbols (universeAt n)).count s) ∧
    (cycleTrace universeAt n).getLast? = some (Event.sleepSec interCycleDelay) ∧
    mainTrace universeAt (n + 1) = mainTrace universeAt n ++ cycleTrace universeAt n := by
  refine ⟨?_, ?_, rfl⟩
  · intro s
    unfold cycleTrace
    rw [List.count_append, scanPhase_count]
    simp
  · unfold cycleTrace
    simp
